import Mathlib

/-!
Verification of the factory resolver (rlclientlib/factory_resolver.cc):
the nifty-counter lifecycle guard for the four process-wide factory
registries, and the default factory set it installs.
-/

namespace FactoryResolver

/-! ## The lifecycle guard (nifty counter)

`factory_initializer` increments a process-wide counter `init_guard` on
construction; on a 0-to-1 transition it placement-news the four registries
(data transport, model, sender, trace logger, in that order) and then calls
`register_default_factories`.  On destruction it decrements the counter; on
a 1-to-0 transition it destroys the four registries (again data transport,
model, sender, trace logger, in the order the destructor calls appear).
We model the observable effect of one construction or destruction as a state
transition that also emits the list of lifecycle events it performs. -/

/-- The four capability-axis registries. -/
inductive Reg
  | dataTransport
  | model
  | sender
  | traceLogger
deriving DecidableEq, Repr

/-- Lifecycle events performed by the guard at a boundary crossing. -/
inductive Event
  | initReg (r : Reg)
  | teardownReg (r : Reg)
  | registerDefaults
deriving DecidableEq, Repr

/-- Observable process-wide state: the guard counter (`static int init_guard`)
and whether each of the four registry objects is currently constructed. -/
structure FacState where
  init_guard : Int
  dtLive : Bool
  modelLive : Bool
  senderLive : Bool
  traceLive : Bool
deriving DecidableEq, Repr

/-- Before any guard runs: the static counter is zero-initialized and no
registry is constructed. -/
def initialState : FacState := ⟨0, false, false, false, false⟩

/-- Events performed by `factory_initializer::factory_initializer` on a
0-to-1 crossing, in source order: the four placement-news, then
`register_default_factories()`. -/
def ctorCrossingEvents : List Event :=
  [.initReg .dataTransport, .initReg .model, .initReg .sender,
   .initReg .traceLogger, .registerDefaults]

/-- Events performed by `factory_initializer::~factory_initializer` on a
1-to-0 crossing, in source order: the four explicit destructor calls on
data transport, model, sender, trace logger. -/
def dtorCrossingEvents : List Event :=
  [.teardownReg .dataTransport, .teardownReg .model,
   .teardownReg .sender, .teardownReg .traceLogger]

/-- `factory_initializer::factory_initializer`:
if `init_guard++ == 0`, construct the four registries and populate them. -/
def guardCtor (s : FacState) : FacState × List Event :=
  if s.init_guard = 0 then
    ({ init_guard := s.init_guard + 1,
       dtLive := true, modelLive := true, senderLive := true, traceLive := true },
     ctorCrossingEvents)
  else
    ({ s with init_guard := s.init_guard + 1 }, [])

/-- `factory_initializer::~factory_initializer`:
if `--init_guard == 0`, destroy the four registries. -/
def guardDtor (s : FacState) : FacState × List Event :=
  if s.init_guard - 1 = 0 then
    ({ init_guard := s.init_guard - 1,
       dtLive := false, modelLive := false, senderLive := false, traceLive := false },
     dtorCrossingEvents)
  else
    ({ s with init_guard := s.init_guard - 1 }, [])

/-- One guard instance being constructed or destructed. -/
inductive GuardOp
  | construct
  | destruct
deriving DecidableEq, Repr

def step (s : FacState) : GuardOp → FacState × List Event
  | .construct => guardCtor s
  | .destruct => guardDtor s

/-- State after running a sequence of guard operations. -/
def runState : FacState → List GuardOp → FacState
  | s, [] => s
  | s, op :: t => runState (step s op).1 t

/-- Concatenated event trace of a sequence of guard operations. -/
def runEvents : FacState → List GuardOp → List Event
  | _, [] => []
  | s, op :: t => (step s op).2 ++ runEvents (step s op).1 t

/-- Number of 0-to-1 transitions of the pure counter along the sequence,
starting from counter value `g`. -/
def upCrossings : Int → List GuardOp → Nat
  | _, [] => 0
  | g, .construct :: t => (if g = 0 then 1 else 0) + upCrossings (g + 1) t
  | g, .destruct :: t => upCrossings (g - 1) t

/-- Number of 1-to-0 transitions of the pure counter along the sequence,
starting from counter value `g`. -/
def downCrossings : Int → List GuardOp → Nat
  | _, [] => 0
  | g, .construct :: t => downCrossings (g + 1) t
  | g, .destruct :: t => (if g = 1 then 1 else 0) + downCrossings (g - 1) t

/-- Every destruction is matched to a prior construction: along every prefix
the counter stays nonnegative. -/
def balancedFrom : Int → List GuardOp → Bool
  | _, [] => true
  | g, .construct :: t => balancedFrom (g + 1) t
  | g, .destruct :: t => decide (0 < g) && balancedFrom (g - 1) t

def Balanced (ops : List GuardOp) : Prop := balancedFrom 0 ops = true

/-- The registries initialized by a trace, in order. -/
def initOrderOf (es : List Event) : List Reg :=
  es.filterMap fun e => match e with | .initReg r => some r | _ => none

/-- The registries torn down by a trace, in order. -/
def teardownOrderOf (es : List Event) : List Reg :=
  es.filterMap fun e => match e with | .teardownReg r => some r | _ => none

/-! ## The creation protocol and the built-in factory functions

Pointer arguments (`i_trace*`, `error_callback_fn*`) are modelled by their
identity: `none` is a null pointer, `some n` a pointer to object `n`.
A factory call writes (or leaves untouched) its `retval` out-slot and its
`api_status` out-parameter, and returns a result code. -/

/-- An `i_trace*` argument. -/
abbrev ITracePtr := Option Nat

/-- An `error_callback_fn*` argument. -/
abbrev ErrorCallbackPtr := Option Nat

/-- A read-only configuration view, a key/value store. -/
structure Configuration where
  entries : List (String × String)
deriving DecidableEq, Repr

def Configuration.lookup (c : Configuration) (key : String) : Option String :=
  (c.entries.find? fun p => p.1 == key).map fun p => p.2

/-- Modelled from the spec: the configuration accessor with caller-supplied
default (`utility::configuration::get`, not in src/) — a read-only key/value
lookup that returns the stored value when the key is set and the supplied
default value otherwise. -/
def Configuration.get (c : Configuration) (key : String) (defaultVal : String) : String :=
  match c.lookup key with
  | some v => v
  | none => defaultVal

/-- Modelled from the spec: the key constants of constants.h are not in src/;
keys are globally meaningful string identifiers whose only relevant property
is identity, so each is rendered by its symbol name. -/
def VW : String := "VW"

/-- Modelled from the spec: see `VW`. -/
def NULL_TRACE_LOGGER : String := "NULL_TRACE_LOGGER"

/-- Modelled from the spec: see `VW`. -/
def CONSOLE_TRACE_LOGGER : String := "CONSOLE_TRACE_LOGGER"

/-- Modelled from the spec: see `VW`. -/
def OBSERVATION_FILE_SENDER : String := "OBSERVATION_FILE_SENDER"

/-- Modelled from the spec: see `VW`. -/
def INTERACTION_FILE_SENDER : String := "INTERACTION_FILE_SENDER"

/-- Modelled from the spec: see `VW`. -/
def OBSERVATION_FILE_NAME : String := "OBSERVATION_FILE_NAME"

/-- Modelled from the spec: see `VW`. -/
def INTERACTION_FILE_NAME : String := "INTERACTION_FILE_NAME"

/-- `error_code::success` (err_constants.h, not in src/): the distinguished
success result code; its concrete numeric value is irrelevant here. -/
def success : Int := 0

/-- Outcome of one factory call: the returned result code, the value written
to the `retval` out-slot (`none` = slot left untouched), and the message
written to the `api_status` out-parameter (`none` = status left untouched). -/
structure CreateResult (α : Type) where
  resultCode : Int
  retvalWrite : Option α
  statusWrite : Option String
deriving DecidableEq, Repr

/-- Modelled from the spec: `logger::file::file_logger` (not in src/) is
rendered as the record of the two arguments its constructor receives at the
call site in factory_resolver.cc — the destination file name and the trace
logger. -/
structure file_logger where
  file_name : String
  trace_logger : ITracePtr
deriving DecidableEq, Repr

/-- Output streams a tracer may write to. -/
inductive OutStream
  | standardDiagnostic
  | standardOutput
deriving DecidableEq, Repr

/-- Modelled from the spec: `console_tracer` (console_tracer.h, not in src/)
is a logger that writes to the process standard diagnostic stream. -/
structure console_tracer where
  target : OutStream
deriving DecidableEq, Repr

/-- The object produced by `new console_tracer()`. -/
def console_tracer.new0 : console_tracer := ⟨.standardDiagnostic⟩

/-- Modelled from the spec: `model_management::vw_model` (not in src/) is
rendered as the record of the argument its constructor receives at the call
site in factory_resolver.cc — the trace logger passed for diagnostics. -/
structure vw_model where
  trace_logger : ITracePtr
deriving DecidableEq, Repr

/-- `file_sender_create`: writes `new file_logger(file_name, trace_logger)`
to the out-slot and returns success; `cfg`, `error_cb` and `status` are not
used by the body. -/
def file_sender_create (cfg : Configuration) (file_name : String)
    (error_cb : ErrorCallbackPtr) (trace_logger : ITracePtr) :
    CreateResult file_logger :=
  { resultCode := success
    retvalWrite := some ⟨file_name, trace_logger⟩
    statusWrite := none }

/-- `vw_model_create`: writes `new vw_model(trace_logger)` and returns
success; the configuration parameter is anonymous in the source and unused. -/
def vw_model_create (cfg : Configuration) (trace_logger : ITracePtr) :
    CreateResult vw_model :=
  { resultCode := success
    retvalWrite := some ⟨trace_logger⟩
    statusWrite := none }

/-- `null_tracer_create`: writes `nullptr` to the out-slot and returns
success. -/
def null_tracer_create (cfg : Configuration) (trace_logger : ITracePtr) :
    CreateResult (Option console_tracer) :=
  { resultCode := success
    retvalWrite := some none
    statusWrite := none }

/-- `console_tracer_create`: writes `new console_tracer()` and returns
success. -/
def console_tracer_create (cfg : Configuration) (trace_logger : ITracePtr) :
    CreateResult (Option console_tracer) :=
  { resultCode := success
    retvalWrite := some (some console_tracer.new0)
    statusWrite := none }

/-- The lambda registered under `OBSERVATION_FILE_SENDER`: resolves the file
name from the configuration with default "observation.fb.data" and delegates
to `file_sender_create`. -/
def observation_file_sender_create (c : Configuration) (cb : ErrorCallbackPtr)
    (trace_logger : ITracePtr) : CreateResult file_logger :=
  let file_name := c.get OBSERVATION_FILE_NAME "observation.fb.data"
  file_sender_create c file_name cb trace_logger

/-- The lambda registered under `INTERACTION_FILE_SENDER`: resolves the file
name from the configuration with default "interaction.fb.data" and delegates
to `file_sender_create`. -/
def interaction_file_sender_create (c : Configuration) (cb : ErrorCallbackPtr)
    (trace_logger : ITracePtr) : CreateResult file_logger :=
  let file_name := c.get INTERACTION_FILE_NAME "interaction.fb.data"
  file_sender_create c file_name cb trace_logger

/-! ## Uniform view of the five built-in factories -/

/-- The five factory functions installed by `register_default_factories`. -/
inductive DefaultFactory
  | vwModel
  | nullTracer
  | consoleTracer
  | observationFileSender
  | interactionFileSender
deriving DecidableEq, Repr

/-- Axis-independent view of one factory call outcome: the result code,
whether the out-slot was written, whether the written value is a newly
allocated object (as opposed to a null pointer), and whether the status
out-parameter was written. -/
structure GenericResult where
  resultCode : Int
  outputWritten : Bool
  outputIsNewObject : Bool
  statusWritten : Bool
deriving DecidableEq, Repr

def senderView (r : CreateResult file_logger) : GenericResult :=
  ⟨r.resultCode, r.retvalWrite.isSome, r.retvalWrite.isSome, r.statusWrite.isSome⟩

def modelView (r : CreateResult vw_model) : GenericResult :=
  ⟨r.resultCode, r.retvalWrite.isSome, r.retvalWrite.isSome, r.statusWrite.isSome⟩

def tracerView (r : CreateResult (Option console_tracer)) : GenericResult :=
  ⟨r.resultCode, r.retvalWrite.isSome,
   (match r.retvalWrite with | some (some _) => true | _ => false),
   r.statusWrite.isSome⟩

/-- Behaviour of each built-in factory on a given configuration, error
callback and trace logger, in the uniform view. -/
def defaultFactoryResult :
    DefaultFactory → Configuration → ErrorCallbackPtr → ITracePtr → GenericResult
  | .vwModel, c, _, tl => modelView (vw_model_create c tl)
  | .nullTracer, c, _, tl => tracerView (null_tracer_create c tl)
  | .consoleTracer, c, _, tl => tracerView (console_tracer_create c tl)
  | .observationFileSender, c, cb, tl => senderView (observation_file_sender_create c cb tl)
  | .interactionFileSender, c, cb, tl => senderView (interaction_file_sender_create c cb tl)

/-- True for every built-in entry whose success writes a newly created
object; false only for the null tracer, which writes an empty reference. -/
def producesObject : DefaultFactory → Bool
  | .nullTracer => false
  | _ => true

/-! ## The four registries and `register_default_factories`

The generic registry container is declared in factory_resolver.h, which is
not in src/; only its use sites are.  Registry values are identified by a
tag: one of the five built-in factories, or an entry added by the external
`register_azure_factories` collaborator. -/

/-- A value stored in a registry. -/
inductive FactoryTag
  | builtin (f : DefaultFactory)
  | azure (id : Nat)
deriving DecidableEq, Repr

/-- One key-to-factory registry. -/
abbrev RegistryMap := List (String × FactoryTag)

/-- Errors a registration can produce. -/
inductive RegError
  | duplicateRegistration
deriving DecidableEq, Repr

def containsKey (reg : RegistryMap) (key : String) : Bool :=
  reg.any fun p => p.1 == key

/-- Modelled from the spec: the registry `register_type` operation (the
typed factory container of factory_resolver.h, not in src/).  The spec
leaves the duplicate-key policy open and recommends fail-fast, so a
duplicate key is rejected with `duplicateRegistration`; otherwise the
factory is stored under the key. -/
def register_type (reg : RegistryMap) (key : String) (v : FactoryTag) :
    Except RegError RegistryMap :=
  if containsKey reg key then .error .duplicateRegistration
  else .ok (reg ++ [(key, v)])

/-- One `register_type` call as the caller in factory_resolver.cc sees it:
the updated registry (unchanged on failure) paired with the result the
caller receives — and, in the source, discards. -/
def registerStep (reg : RegistryMap) (key : String) (v : FactoryTag) :
    RegistryMap × Option RegError :=
  match register_type reg key v with
  | .ok r => (r, none)
  | .error e => (reg, some e)

/-- The four registries. -/
structure Registries where
  dataTransport : RegistryMap
  model : RegistryMap
  sender : RegistryMap
  traceLogger : RegistryMap
deriving DecidableEq, Repr

/-- `factory_initializer::register_default_factories`, starting from the
registry state `s` left by `register_azure_factories` (an external
collaborator, kept abstract): registers VW on the model axis, the null and
console tracers on the trace-logger axis, and the two file senders on the
sender axis, in source order.  The C++ function returns void and ignores
every `register_type` result; the second component collects those discarded
per-registration results for analysis. -/
def register_default_factories (s : Registries) :
    Registries × List (Option RegError) :=
  let r1 := registerStep s.model VW (.builtin .vwModel)
  let r2 := registerStep s.traceLogger NULL_TRACE_LOGGER (.builtin .nullTracer)
  let r3 := registerStep r2.1 CONSOLE_TRACE_LOGGER (.builtin .consoleTracer)
  let r4 := registerStep s.sender OBSERVATION_FILE_SENDER (.builtin .observationFileSender)
  let r5 := registerStep r4.1 INTERACTION_FILE_SENDER (.builtin .interactionFileSender)
  (⟨s.dataTransport, r1.1, r5.1, r3.1⟩, [r1.2, r2.2, r3.2, r4.2, r5.2])

/-- What the constructor surfaces to the process about population. -/
structure ConstructionOutcome where
  registries : Registries
  reportedError : Option RegError
deriving DecidableEq, Repr

/-- The population phase of `factory_initializer::factory_initializer`, run
on the first crossing: the constructor has no status out-parameter and no
return value, and discards each registration result, so it reports no
error regardless of what the registrations produced. -/
def guard_construct_registries (postAzure : Registries) : ConstructionOutcome :=
  { registries := (register_default_factories postAzure).1
    reportedError := none }

/-! ## Lifecycle lemmas -/

theorem guardCtor_counter (s : FacState) :
    (guardCtor s).1.init_guard = s.init_guard + 1 := by
  unfold guardCtor; split <;> rfl

theorem guardDtor_counter (s : FacState) :
    (guardDtor s).1.init_guard = s.init_guard - 1 := by
  unfold guardDtor; split <;> rfl

theorem guardCtor_events (s : FacState) :
    (guardCtor s).2 = if s.init_guard = 0 then ctorCrossingEvents else [] := by
  unfold guardCtor; split <;> simp_all

theorem guardDtor_events (s : FacState) :
    (guardDtor s).2 = if s.init_guard = 1 then dtorCrossingEvents else [] := by
  unfold guardDtor
  by_cases h : s.init_guard - 1 = 0
  · rw [if_pos h, if_pos (by omega)]
  · rw [if_neg h, if_neg (by omega)]

theorem runEvents_cons (s : FacState) (op : GuardOp) (t : List GuardOp) :
    runEvents s (op :: t) = (step s op).2 ++ runEvents (step s op).1 t := rfl

theorem runState_cons (s : FacState) (op : GuardOp) (t : List GuardOp) :
    runState s (op :: t) = runState (step s op).1 t := rfl

theorem runState_append (a b : List GuardOp) :
    ∀ s : FacState, runState s (a ++ b) = runState (runState s a) b := by
  induction a with
  | nil => intro s; rfl
  | cons op t ih => intro s; exact ih (step s op).1

theorem runEvents_append (a b : List GuardOp) :
    ∀ s : FacState,
      runEvents s (a ++ b) = runEvents s a ++ runEvents (runState s a) b := by
  induction a with
  | nil => intro s; rfl
  | cons op t ih =>
    intro s
    rw [List.cons_append, runEvents_cons, runEvents_cons, ih, runState_cons,
      List.append_assoc]

/-- The number of times a given event occurs in the trace of a run is
determined by how often that event occurs in one construction crossing and
one destruction crossing, times the number of such crossings. -/
theorem runEvents_count (e : Event) (ops : List GuardOp) :
    ∀ s : FacState,
      (runEvents s ops).count e
        = ctorCrossingEvents.count e * upCrossings s.init_guard ops
          + dtorCrossingEvents.count e * downCrossings s.init_guard ops := by
  induction ops with
  | nil => intro s; simp [runEvents, upCrossings, downCrossings]
  | cons op t ih =>
    intro s
    cases op with
    | construct =>
      rw [runEvents_cons, List.count_append, ih]
      show ((step s .construct).2).count e
            + (ctorCrossingEvents.count e * upCrossings (guardCtor s).1.init_guard t
              + dtorCrossingEvents.count e * downCrossings (guardCtor s).1.init_guard t)
          = _
      rw [guardCtor_counter]
      show (guardCtor s).2.count e + _ = _
      rw [guardCtor_events]
      simp only [upCrossings, downCrossings]
      by_cases h : s.init_guard = 0
      · rw [if_pos h, if_pos h]
        ring
      · rw [if_neg h, if_neg h]
        simp
    | destruct =>
      rw [runEvents_cons, List.count_append, ih]
      show ((step s .destruct).2).count e
            + (ctorCrossingEvents.count e * upCrossings (guardDtor s).1.init_guard t
              + dtorCrossingEvents.count e * downCrossings (guardDtor s).1.init_guard t)
          = _
      rw [guardDtor_counter]
      show (guardDtor s).2.count e + _ = _
      rw [guardDtor_events]
      simp only [upCrossings, downCrossings]
      by_cases h : s.init_guard = 1
      · rw [if_pos h, if_pos h]
        ring
      · rw [if_neg h, if_neg h]
        simp

/-- Once the counter is at least one, further constructions cross no
boundary: they emit no events and only push the counter up. -/
theorem run_constructs_live (n : Nat) :
    ∀ g : Int, 1 ≤ g →
      runEvents ⟨g, true, true, true, true⟩ (List.replicate n .construct) = [] ∧
      runState ⟨g, true, true, true, true⟩ (List.replicate n .construct)
        = ⟨g + n, true, true, true, true⟩ := by
  induction n with
  | zero => intro g hg; exact ⟨rfl, by simp [runState]⟩
  | succ n ih =>
    intro g hg
    have hne : ¬ (FacState.mk g true true true true).init_guard = 0 := by
      simp; omega
    have hstep : step ⟨g, true, true, true, true⟩ .construct
        = (⟨g + 1, true, true, true, true⟩, []) := by
      simp [step, guardCtor, hne]
    obtain ⟨he, hs⟩ := ih (g + 1) (by omega)
    have hcast : g + 1 + (n : Int) = g + ((n : Nat) + 1 : Nat) := by
      push_cast; ring
    refine ⟨?_, ?_⟩
    · rw [List.replicate_succ, runEvents_cons, hstep]
      simpa using he
    · rw [List.replicate_succ, runState_cons, hstep]
      rw [show ((⟨g + 1, true, true, true, true⟩, ([] : List Event)).1 : FacState)
            = ⟨g + 1, true, true, true, true⟩ from rfl]
      rw [hs, hcast]

/-- From the all-zero state, `n + 1` constructions perform exactly one
initialization (at the first construction) and leave the counter at
`n + 1` with all four registries live. -/
theorem run_constructs_initial (n : Nat) :
    runEvents initialState (List.replicate (n + 1) .construct) = ctorCrossingEvents ∧
    runState initialState (List.replicate (n + 1) .construct)
      = ⟨(n : Int) + 1, true, true, true, true⟩ := by
  have hstep : step initialState .construct
      = (⟨1, true, true, true, true⟩, ctorCrossingEvents) := by
    simp [step, guardCtor, initialState]
  obtain ⟨he, hs⟩ := run_constructs_live n 1 (by omega)
  refine ⟨?_, ?_⟩
  · rw [List.replicate_succ, runEvents_cons, hstep]
    simpa using he
  · rw [List.replicate_succ, runState_cons, hstep]
    rw [show ((⟨1, true, true, true, true⟩, ctorCrossingEvents).1 : FacState)
          = ⟨1, true, true, true, true⟩ from rfl]
    rw [hs]
    simp only [FacState.mk.injEq, and_true]
    omega

/-- From counter `n + 1` with all registries live, `n + 1` destructions
perform exactly one teardown (at the last destruction) and restore the
all-zero state. -/
theorem run_destructs (n : Nat) :
    ∀ g : Int, g = (n : Int) + 1 →
      runEvents ⟨g, true, true, true, true⟩ (List.replicate (n + 1) .destruct)
        = dtorCrossingEvents ∧
      runState ⟨g, true, true, true, true⟩ (List.replicate (n + 1) .destruct)
        = initialState := by
  induction n with
  | zero =>
    intro g hg
    have hg1 : g = 1 := by push_cast at hg; omega
    subst hg1
    have hstep : step ⟨(1 : Int), true, true, true, true⟩ .destruct
        = (⟨0, false, false, false, false⟩, dtorCrossingEvents) := by
      simp [step, guardDtor]
    refine ⟨?_, ?_⟩
    · rw [List.replicate_succ, runEvents_cons, hstep]
      rfl
    · rw [List.replicate_succ, runState_cons, hstep]
      rfl
  | succ n ih =>
    intro g hg
    have hne : ¬ ((FacState.mk g true true true true).init_guard - 1 = 0) := by
      simp; omega
    have hstep : step ⟨g, true, true, true, true⟩ .destruct
        = (⟨g - 1, true, true, true, true⟩, []) := by
      simp [step, guardDtor, hne]
    obtain ⟨he, hs⟩ := ih (g - 1) (by omega)
    refine ⟨?_, ?_⟩
    · rw [List.replicate_succ, runEvents_cons, hstep]
      simpa using he
    · rw [List.replicate_succ, runState_cons, hstep]
      rw [show ((⟨g - 1, true, true, true, true⟩, ([] : List Event)).1 : FacState)
            = ⟨g - 1, true, true, true, true⟩ from rfl]
      exact hs

/-- Each step leaves the four liveness flags equal to each other. -/
theorem step_uniform (op : GuardOp) (s : FacState)
    (h : s.dtLive = s.modelLive ∧ s.modelLive = s.senderLive ∧
      s.senderLive = s.traceLive) :
    (step s op).1.dtLive = (step s op).1.modelLive ∧
    (step s op).1.modelLive = (step s op).1.senderLive ∧
    (step s op).1.senderLive = (step s op).1.traceLive := by
  cases op <;> simp only [step, guardCtor, guardDtor] <;> split <;> simp_all

theorem run_uniform (ops : List GuardOp) :
    ∀ s : FacState,
      (s.dtLive = s.modelLive ∧ s.modelLive = s.senderLive ∧
        s.senderLive = s.traceLive) →
      ((runState s ops).dtLive = (runState s ops).modelLive ∧
        (runState s ops).modelLive = (runState s ops).senderLive ∧
        (runState s ops).senderLive = (runState s ops).traceLive) := by
  induction ops with
  | nil => intro s h; exact h
  | cons op t ih => intro s h; exact ih (step s op).1 (step_uniform op s h)

/-! ## Claims about the lifecycle guard -/

/-- C1: for every balanced sequence of guard constructions and destructions
(each destruction matched to a prior construction), each of the four
registries is initialized exactly once per 0-to-1 counter transition,
populated (`register_default_factories`) exactly once per 0-to-1 transition,
and torn down exactly once per 1-to-0 transition; in particular N
constructions followed by N destructions perform exactly one initialization
block and one teardown block and end in the all-dead zero-counter state.
Repeated load/unload cycles re-run both at every crossing, since the counts
equal the number of crossings. -/
theorem C1_lifecycle_exactly_once (ops : List GuardOp) (hb : Balanced ops)
    (N : Nat) (hN : 1 ≤ N) :
    ((∀ r : Reg,
        (runEvents initialState ops).count (Event.initReg r) = upCrossings 0 ops) ∧
      (runEvents initialState ops).count Event.registerDefaults = upCrossings 0 ops ∧
      (∀ r : Reg,
        (runEvents initialState ops).count (Event.teardownReg r) = downCrossings 0 ops)) ∧
    (runEvents initialState
        (List.replicate N GuardOp.construct ++ List.replicate N GuardOp.destruct)
        = ctorCrossingEvents ++ dtorCrossingEvents ∧
      runState initialState
        (List.replicate N GuardOp.construct ++ List.replicate N GuardOp.destruct)
        = initialState) := by
  refine ⟨⟨?_, ?_, ?_⟩, ?_⟩
  · intro r
    have h := runEvents_count (Event.initReg r) ops initialState
    have h1 : ctorCrossingEvents.count (Event.initReg r) = 1 := by cases r <;> decide
    have h2 : dtorCrossingEvents.count (Event.initReg r) = 0 := by cases r <;> decide
    rw [h1, h2] at h
    simpa [initialState] using h
  · have h := runEvents_count Event.registerDefaults ops initialState
    have h1 : ctorCrossingEvents.count Event.registerDefaults = 1 := by decide
    have h2 : dtorCrossingEvents.count Event.registerDefaults = 0 := by decide
    rw [h1, h2] at h
    simpa [initialState] using h
  · intro r
    have h := runEvents_count (Event.teardownReg r) ops initialState
    have h1 : ctorCrossingEvents.count (Event.teardownReg r) = 0 := by cases r <;> decide
    have h2 : dtorCrossingEvents.count (Event.teardownReg r) = 1 := by cases r <;> decide
    rw [h1, h2] at h
    simpa [initialState] using h
  · obtain ⟨m, rfl⟩ : ∃ m, N = m + 1 := ⟨N - 1, by omega⟩
    obtain ⟨hce, hcs⟩ := run_constructs_initial m
    obtain ⟨hde, hds⟩ := run_destructs m ((m : Int) + 1) rfl
    constructor
    · rw [runEvents_append, hce, hcs, hde]
    · rw [runState_append, hcs, hds]

/-- Witness for C1 at the bouncing sequence construct, destruct, construct,
destruct and at N = 2. -/
theorem C1_lifecycle_exactly_once_witness :
    (runEvents initialState
        [GuardOp.construct, GuardOp.destruct, GuardOp.construct,
          GuardOp.destruct]).count (Event.initReg Reg.dataTransport)
      = upCrossings 0
          [GuardOp.construct, GuardOp.destruct, GuardOp.construct,
            GuardOp.destruct] ∧
    (runEvents initialState
        [GuardOp.construct, GuardOp.destruct, GuardOp.construct,
          GuardOp.destruct]).count Event.registerDefaults
      = upCrossings 0
          [GuardOp.construct, GuardOp.destruct, GuardOp.construct,
            GuardOp.destruct] ∧
    (runEvents initialState
        [GuardOp.construct, GuardOp.destruct, GuardOp.construct,
          GuardOp.destruct]).count (Event.teardownReg Reg.traceLogger)
      = downCrossings 0
          [GuardOp.construct, GuardOp.destruct, GuardOp.construct,
            GuardOp.destruct] ∧
    runEvents initialState
        (List.replicate 2 GuardOp.construct ++ List.replicate 2 GuardOp.destruct)
      = ctorCrossingEvents ++ dtorCrossingEvents ∧
    runState initialState
        (List.replicate 2 GuardOp.construct ++ List.replicate 2 GuardOp.destruct)
      = initialState :=
  ⟨(C1_lifecycle_exactly_once
      [GuardOp.construct, GuardOp.destruct, GuardOp.construct, GuardOp.destruct]
      rfl 2 (by decide)).1.1 Reg.dataTransport,
   (C1_lifecycle_exactly_once
      [GuardOp.construct, GuardOp.destruct, GuardOp.construct, GuardOp.destruct]
      rfl 2 (by decide)).1.2.1,
   (C1_lifecycle_exactly_once
      [GuardOp.construct, GuardOp.destruct, GuardOp.construct, GuardOp.destruct]
      rfl 2 (by decide)).1.2.2 Reg.traceLogger,
   (C1_lifecycle_exactly_once
      [GuardOp.construct, GuardOp.destruct, GuardOp.construct, GuardOp.destruct]
      rfl 2 (by decide)).2.1,
   (C1_lifecycle_exactly_once
      [GuardOp.construct, GuardOp.destruct, GuardOp.construct, GuardOp.destruct]
      rfl 2 (by decide)).2.2⟩

/-- C2 is false of the code: after one construction and one destruction,
the order in which the destructor destroys the four registries is not the
reverse of the order in which the constructor initialized them (it is the
same order). -/
theorem C2_teardown_not_reverse :
    teardownOrderOf (runEvents initialState [GuardOp.construct, GuardOp.destruct])
      ≠ (initOrderOf
          (runEvents initialState [GuardOp.construct, GuardOp.destruct])).reverse := by
  decide

/-- C2 amended: on every 1-to-0 counter transition the four registries are
destroyed in the same order in which they were initialized — data transport,
model, sender, trace logger — not the reverse order. -/
theorem C2_teardown_same_order (s : FacState) (h : s.init_guard = 1) :
    teardownOrderOf (guardDtor s).2
      = [Reg.dataTransport, Reg.model, Reg.sender, Reg.traceLogger] ∧
    teardownOrderOf (guardDtor s).2 = initOrderOf ctorCrossingEvents := by
  rw [guardDtor_events, if_pos h]
  exact ⟨rfl, rfl⟩

/-- Witness for the amended C2 at the state with counter one. -/
theorem C2_teardown_same_order_witness :
    teardownOrderOf (guardDtor ⟨1, true, true, true, true⟩).2
      = [Reg.dataTransport, Reg.model, Reg.sender, Reg.traceLogger] ∧
    teardownOrderOf (guardDtor ⟨1, true, true, true, true⟩).2
      = initOrderOf ctorCrossingEvents :=
  C2_teardown_same_order ⟨1, true, true, true, true⟩ rfl

/-- C3: in every state reachable by any sequence of guard constructions and
destructions, the four registries are either all uninitialized or all
initialized: the four liveness flags are always equal to one another. -/
theorem C3_registries_all_or_nothing (ops : List GuardOp) :
    (runState initialState ops).dtLive = (runState initialState ops).modelLive ∧
    (runState initialState ops).modelLive = (runState initialState ops).senderLive ∧
    (runState initialState ops).senderLive = (runState initialState ops).traceLive :=
  run_uniform ops initialState ⟨rfl, rfl, rfl⟩

/-! ## Registry helper lemmas -/

theorem containsKey_append (r : RegistryMap) (k k2 : String) (v : FactoryTag) :
    containsKey (r ++ [(k, v)]) k2 = (containsKey r k2 || (k == k2)) := by
  simp [containsKey, List.any_append]

theorem containsKey_self_append (r : RegistryMap) (k : String) (v : FactoryTag) :
    containsKey (r ++ [(k, v)]) k = true := by
  simp [containsKey_append]

theorem registerStep_free (r : RegistryMap) (k : String) (v : FactoryTag)
    (h : containsKey r k = false) :
    (registerStep r k v).1 = r ++ [(k, v)] ∧ (registerStep r k v).2 = none := by
  simp [registerStep, register_type, h]

theorem registerStep_taken (r : RegistryMap) (k : String) (v : FactoryTag)
    (h : containsKey r k = true) :
    (registerStep r k v).1 = r := by
  simp [registerStep, register_type, h]

theorem model_after_defaults (s : Registries) :
    (register_default_factories s).1.model
      = (registerStep s.model VW (.builtin .vwModel)).1 := rfl

theorem sender_after_defaults (s : Registries) :
    (register_default_factories s).1.sender
      = (registerStep
          (registerStep s.sender OBSERVATION_FILE_SENDER
            (.builtin .observationFileSender)).1
          INTERACTION_FILE_SENDER (.builtin .interactionFileSender)).1 := rfl

/-! ## Claims about the factory functions and registrations -/

/-- C4 is false of the code: the constructed file sender is not bound to the
error-reporting callback — two factory calls differing only in the callback
construct identical senders, because the callback is never passed into the
file logger. -/
theorem C4_sender_not_bound_to_callback :
    (some 0 : ErrorCallbackPtr) ≠ (some 1 : ErrorCallbackPtr) ∧
    observation_file_sender_create ⟨[]⟩ (some 0) none
      = observation_file_sender_create ⟨[]⟩ (some 1) none ∧
    interaction_file_sender_create ⟨[]⟩ (some 0) none
      = interaction_file_sender_create ⟨[]⟩ (some 1) none := by
  decide

/-- C4 amended: each file-backed sender factory constructs a file-writing
sender bound to the resolved destination file name and to the trace logger;
the error-reporting callback parameter is accepted but not bound into the
constructed sender. -/
theorem C4_sender_binding (c : Configuration) (cb : ErrorCallbackPtr)
    (tl : ITracePtr) :
    (observation_file_sender_create c cb tl).retvalWrite
      = some ⟨c.get OBSERVATION_FILE_NAME "observation.fb.data", tl⟩ ∧
    (interaction_file_sender_create c cb tl).retvalWrite
      = some ⟨c.get INTERACTION_FILE_NAME "interaction.fb.data", tl⟩ :=
  ⟨rfl, rfl⟩

/-- C5: a configuration that omits the file-name option yields a sender
bound to the default name "observation.fb.data" (observation) or
"interaction.fb.data" (interaction); a configuration that supplies the
option yields a sender bound to the supplied name instead. -/
theorem C5_file_name_defaults (c : Configuration) (cb : ErrorCallbackPtr)
    (tl : ITracePtr) (v : String) :
    (c.lookup OBSERVATION_FILE_NAME = none →
      (observation_file_sender_create c cb tl).retvalWrite
        = some ⟨"observation.fb.data", tl⟩) ∧
    (c.lookup OBSERVATION_FILE_NAME = some v →
      (observation_file_sender_create c cb tl).retvalWrite = some ⟨v, tl⟩) ∧
    (c.lookup INTERACTION_FILE_NAME = none →
      (interaction_file_sender_create c cb tl).retvalWrite
        = some ⟨"interaction.fb.data", tl⟩) ∧
    (c.lookup INTERACTION_FILE_NAME = some v →
      (interaction_file_sender_create c cb tl).retvalWrite = some ⟨v, tl⟩) := by
  refine ⟨?_, ?_, ?_, ?_⟩ <;> intro h <;>
    simp [observation_file_sender_create, interaction_file_sender_create,
      file_sender_create, Configuration.get, h]

/-- Witness for C5: the default applies on the empty configuration and the
supplied option overrides it. -/
theorem C5_file_name_defaults_witness :
    (observation_file_sender_create ⟨[]⟩ none none).retvalWrite
      = some ⟨"observation.fb.data", none⟩ ∧
    (observation_file_sender_create ⟨[(OBSERVATION_FILE_NAME, "my.data")]⟩
        none none).retvalWrite = some ⟨"my.data", none⟩ ∧
    (interaction_file_sender_create ⟨[]⟩ none none).retvalWrite
      = some ⟨"interaction.fb.data", none⟩ ∧
    (interaction_file_sender_create ⟨[(INTERACTION_FILE_NAME, "my2.data")]⟩
        none none).retvalWrite = some ⟨"my2.data", none⟩ :=
  ⟨(C5_file_name_defaults ⟨[]⟩ none none "x").1 rfl,
   (C5_file_name_defaults ⟨[(OBSERVATION_FILE_NAME, "my.data")]⟩ none none
      "my.data").2.1 rfl,
   (C5_file_name_defaults ⟨[]⟩ none none "x").2.2.1 rfl,
   (C5_file_name_defaults ⟨[(INTERACTION_FILE_NAME, "my2.data")]⟩ none none
      "my2.data").2.2.2 rfl⟩

/-- C6: for every configuration the null trace-logger entry returns success
writing an absent (null) logger to the out-slot with the status untouched,
and the console entry returns success writing a newly constructed logger
that writes to the standard diagnostic stream, status untouched; these are
exactly the two default trace-logger registrations. -/
theorem C6_default_tracers (c : Configuration) (tl : ITracePtr) :
    null_tracer_create c tl
      = { resultCode := success, retvalWrite := some none, statusWrite := none } ∧
    console_tracer_create c tl
      = { resultCode := success, retvalWrite := some (some console_tracer.new0),
          statusWrite := none } ∧
    console_tracer.new0.target = OutStream.standardDiagnostic ∧
    (register_default_factories ⟨[], [], [], []⟩).1.traceLogger
      = [(NULL_TRACE_LOGGER, FactoryTag.builtin DefaultFactory.nullTracer),
         (CONSOLE_TRACE_LOGGER, FactoryTag.builtin DefaultFactory.consoleTracer)] :=
  ⟨rfl, rfl, rfl, by decide⟩

/-- C7 is false of the code: the null tracer factory, installed by the
default set, returns the success result code while writing an empty (null)
reference — not a newly created object — to its out-slot. -/
theorem C7_success_without_object :
    (defaultFactoryResult DefaultFactory.nullTracer ⟨[]⟩ none none).resultCode
      = success ∧
    (defaultFactoryResult DefaultFactory.nullTracer ⟨[]⟩ none none).outputWritten
      = true ∧
    (defaultFactoryResult DefaultFactory.nullTracer ⟨[]⟩ none none).outputIsNewObject
      = false := by
  decide

/-- C7 amended: every factory registered by the default factory set returns
success with the status object untouched and its out-slot written; the value
written is a newly created object (ownership passing to the caller) for
every entry except the null tracer, which writes an empty (null) reference. -/
theorem C7_creation_contract (f : DefaultFactory) (c : Configuration)
    (cb : ErrorCallbackPtr) (tl : ITracePtr) :
    (defaultFactoryResult f c cb tl).resultCode = success ∧
    (defaultFactoryResult f c cb tl).statusWritten = false ∧
    (defaultFactoryResult f c cb tl).outputWritten = true ∧
    (defaultFactoryResult f c cb tl).outputIsNewObject = producesObject f := by
  cases f <;>
    simp [defaultFactoryResult, modelView, tracerView, senderView,
      vw_model_create, null_tracer_create, console_tracer_create,
      observation_file_sender_create, interaction_file_sender_create,
      file_sender_create, producesObject]

/-- Registry state in which the external collaborator has already claimed
the observation-file-sender key, so one default registration fails. -/
def azureClaimedObservation : Registries :=
  ⟨[], [], [(OBSERVATION_FILE_SENDER, FactoryTag.azure 0)], []⟩

/-- C8 is false of the code: with the observation-file key already taken,
one default registration fails, yet the constructor surfaces no error — it
has no status channel and discards every registration result — so the
failure is silently discarded; construction nevertheless completes and the
remaining defaults are registered. -/
theorem C8_failure_discarded :
    (register_default_factories azureClaimedObservation).2.contains
        (some RegError.duplicateRegistration) = true ∧
    (guard_construct_registries azureClaimedObservation).reportedError = none ∧
    containsKey
        (guard_construct_registries azureClaimedObservation).registries.sender
        INTERACTION_FILE_SENDER = true ∧
    containsKey
        (guard_construct_registries azureClaimedObservation).registries.model
        VW = true := by
  decide

/-- C8 amended: registration failures during default-set population are
silently discarded — the constructor reports no error whatever state the
external collaborator left — and the guard completes construction
best-effort, still registering every default factory whose key is free. -/
theorem C8_best_effort_construction (s : Registries)
    (h1 : containsKey s.model VW = false)
    (h2 : containsKey s.sender INTERACTION_FILE_SENDER = false) :
    (guard_construct_registries s).reportedError = none ∧
    containsKey (guard_construct_registries s).registries.model VW = true ∧
    containsKey (guard_construct_registries s).registries.sender
      INTERACTION_FILE_SENDER = true := by
  refine ⟨rfl, ?_, ?_⟩
  · show containsKey (register_default_factories s).1.model VW = true
    rw [model_after_defaults, (registerStep_free s.model VW _ h1).1]
    exact containsKey_self_append _ _ _
  · show containsKey (register_default_factories s).1.sender
      INTERACTION_FILE_SENDER = true
    rw [sender_after_defaults]
    cases hobs : containsKey s.sender OBSERVATION_FILE_SENDER with
    | false =>
      rw [(registerStep_free s.sender OBSERVATION_FILE_SENDER _ hobs).1]
      have hfree : containsKey
          (s.sender ++ [(OBSERVATION_FILE_SENDER,
            FactoryTag.builtin DefaultFactory.observationFileSender)])
          INTERACTION_FILE_SENDER = false := by
        rw [containsKey_append, h2]
        decide
      rw [(registerStep_free _ INTERACTION_FILE_SENDER _ hfree).1]
      exact containsKey_self_append _ _ _
    | true =>
      rw [registerStep_taken s.sender OBSERVATION_FILE_SENDER _ hobs]
      rw [(registerStep_free s.sender INTERACTION_FILE_SENDER _ h2).1]
      exact containsKey_self_append _ _ _

/-- Witness for the amended C8 at the state where the external collaborator
claimed the observation-file key (so a registration actually fails). -/
theorem C8_best_effort_construction_witness :
    (guard_construct_registries azureClaimedObservation).reportedError = none ∧
    containsKey (guard_construct_registries azureClaimedObservation).registries.model
      VW = true ∧
    containsKey (guard_construct_registries azureClaimedObservation).registries.sender
      INTERACTION_FILE_SENDER = true :=
  C8_best_effort_construction azureClaimedObservation (by decide) (by decide)

/-- C9: the built-in model factory (key "VW") ignores its configuration
argument entirely — any two configurations give the same outcome — and
constructs the model holding the supplied trace-logger reference, returning
success; it is registered on the model axis under the VW key. -/
theorem C9_vw_model_ignores_config (c1 c2 : Configuration) (tl : ITracePtr) :
    vw_model_create c1 tl = vw_model_create c2 tl ∧
    (vw_model_create c1 tl).retvalWrite = some ⟨tl⟩ ∧
    (vw_model_create c1 tl).resultCode = success ∧
    (register_default_factories ⟨[], [], [], []⟩).1.model
      = [(VW, FactoryTag.builtin DefaultFactory.vwModel)] :=
  ⟨rfl, rfl, rfl, by decide⟩

/-- C10: every built-in factory installed by the default factory set
unconditionally returns the success result code and never writes its status
out-parameter, for every configuration, error callback and trace logger. -/
theorem C10_builtin_factories_always_succeed (f : DefaultFactory)
    (c : Configuration) (cb : ErrorCallbackPtr) (tl : ITracePtr) :
    (defaultFactoryResult f c cb tl).resultCode = success ∧
    (defaultFactoryResult f c cb tl).statusWritten = false := by
  cases f <;> exact ⟨rfl, rfl⟩

end FactoryResolver
